import Mathlib

/-!
Verification of the golden-section search repository.

The Rust source (src/main.rs, src/unimodal_problem/problem.rs) works over
`f32`; we embed it over the real numbers `ℝ`, the standard idealisation of
its floating-point arithmetic.  Every definition below is a direct
transcription of the corresponding Rust item; the unbounded `while` loop is
embedded with an explicit fuel parameter, and its termination (existence of
enough fuel, with a fuel-independent result afterwards) is proved.
-/

namespace GoldenSection

/-- Embeds `PHI: f32 = (1.0 + 5.0_f32.sqrt()) / 2.0` from src/main.rs. -/
noncomputable def PHI : ℝ := (1 + Real.sqrt 5) / 2

/-- Embeds `RESPHI: f32 = 2.0 - *PHI` from src/main.rs. -/
noncomputable def RESPHI : ℝ := 2 - PHI

/-- Embeds `struct UnimodalProblem` from src/unimodal_problem/problem.rs. -/
structure UnimodalProblem where
  x_offset : ℝ
  scale_factor : ℝ

/-- Embeds `UnimodalProblem::calc` (renamed: `calc` is a Lean keyword):
`self.scale_factor * f32::abs(1.0 / (x - self.x_offset))`. -/
noncomputable def UnimodalProblem.calcValue (self : UnimodalProblem) (x : ℝ) : ℝ :=
  self.scale_factor * |1 / (x - self.x_offset)|

/-- Embeds `struct UnimodalProblemBuilder` from src/unimodal_problem/problem.rs. -/
structure UnimodalProblemBuilder where
  x_offset : ℝ
  scale_factor : ℝ

/-- Embeds `UnimodalProblemBuilder::new` (defaults `0.0`, `0.0`). -/
noncomputable def UnimodalProblemBuilder.new : UnimodalProblemBuilder :=
  { x_offset := 0, scale_factor := 0 }

/-- Embeds `UnimodalProblemBuilder::randomize`.  The two draws of
`rng.gen::<f32>()` (each uniform on `[0,1)`) are passed in explicitly as
`g1` and `g2`; the arithmetic `(g - 0.5) * 100.0` and `(g - 0.5) * 20.0`
is transcribed from the source. -/
noncomputable def UnimodalProblemBuilder.randomize
    (self : UnimodalProblemBuilder) (g1 g2 : ℝ) : UnimodalProblemBuilder :=
  { self with x_offset := (g1 - 0.5) * 100, scale_factor := (g2 - 0.5) * 20 }

/-- Embeds `UnimodalProblemBuilder::build`. -/
noncomputable def UnimodalProblemBuilder.build
    (self : UnimodalProblemBuilder) : UnimodalProblem :=
  { x_offset := self.x_offset, scale_factor := self.scale_factor }

/-- The local state of `golden_section_search` in src/main.rs: the mutable
bracket bounds (function parameters `lower_bound`, `upper_bound`) and the
mutable locals `lower_search`, `lower_val`, `upper_search`, `upper_val`. -/
structure GssState where
  lower_bound : ℝ
  upper_bound : ℝ
  lower_search : ℝ
  lower_val : ℝ
  upper_search : ℝ
  upper_val : ℝ

/-- The bracket width `upper_bound - lower_bound` of a search state; the loop
guard of the source compares `f32::abs(upper_bound - lower_bound)` with
`xtol`. -/
def GssState.width (s : GssState) : ℝ := s.upper_bound - s.lower_bound

/-- The state right before the `while` loop of `golden_section_search`:
`lower_search = lower_bound + RESPHI * (upper_bound - lower_bound)`,
`lower_val = problem.calc(lower_search)`, and symmetrically for the upper
probe. -/
noncomputable def gssInit (problem : UnimodalProblem) (lower_bound upper_bound : ℝ) :
    GssState :=
  { lower_bound := lower_bound
    upper_bound := upper_bound
    lower_search := lower_bound + RESPHI * (upper_bound - lower_bound)
    lower_val := problem.calcValue (lower_bound + RESPHI * (upper_bound - lower_bound))
    upper_search := upper_bound - RESPHI * (upper_bound - lower_bound)
    upper_val := problem.calcValue (upper_bound - RESPHI * (upper_bound - lower_bound)) }

/-- One iteration of the `while` loop body of `golden_section_search`,
transcribed branch by branch from src/main.rs lines 51-65. -/
noncomputable def gssStep (problem : UnimodalProblem) (s : GssState) : GssState :=
  if s.lower_val < s.upper_val then
    { lower_bound := s.lower_bound
      upper_bound := s.upper_search
      lower_search := s.lower_bound + RESPHI * (s.upper_search - s.lower_bound)
      lower_val := problem.calcValue (s.lower_bound + RESPHI * (s.upper_search - s.lower_bound))
      upper_search := s.lower_search
      upper_val := s.lower_val }
  else
    { lower_bound := s.lower_search
      upper_bound := s.upper_bound
      lower_search := s.upper_search
      lower_val := s.upper_val
      upper_search := s.upper_bound - RESPHI * (s.upper_bound - s.lower_search)
      upper_val := problem.calcValue (s.upper_bound - RESPHI * (s.upper_bound - s.lower_search)) }

/-- The `while f32::abs(upper_bound - lower_bound) > xtol` loop, with an
explicit fuel bound on the number of iterations (the Rust loop is
unbounded; termination is proved separately). -/
noncomputable def gssLoop (problem : UnimodalProblem) (xtol : ℝ) :
    ℕ → GssState → GssState
  | 0, s => s
  | fuel + 1, s =>
    if |s.upper_bound - s.lower_bound| > xtol then
      gssLoop problem xtol fuel (gssStep problem s)
    else s

/-- Number of loop iterations actually executed by `gssLoop` with the given
fuel. -/
noncomputable def gssIters (problem : UnimodalProblem) (xtol : ℝ) :
    ℕ → GssState → ℕ
  | 0, _ => 0
  | fuel + 1, s =>
    if |s.upper_bound - s.lower_bound| > xtol then
      gssIters problem xtol fuel (gssStep problem s) + 1
    else 0

/-- Embeds `golden_section_search` from src/main.rs: initialise the probes,
run the loop, then return `((upper_bound + lower_bound) / 2.0, problem.calc(final_x))`. -/
noncomputable def golden_section_search (problem : UnimodalProblem)
    (lower_bound upper_bound xtol : ℝ) (fuel : ℕ) : ℝ × ℝ :=
  let s := gssLoop problem xtol fuel (gssInit problem lower_bound upper_bound)
  let final_x := (s.upper_bound + s.lower_bound) / 2
  (final_x, problem.calcValue final_x)

/-- One loop iteration, additionally recording the argument of the single
`problem.calc` call the branch makes (the trace of evaluation points). -/
noncomputable def gssStepTrace (problem : UnimodalProblem)
    (st : GssState × List ℝ) : GssState × List ℝ :=
  if st.1.lower_val < st.1.upper_val then
    ({ lower_bound := st.1.lower_bound
       upper_bound := st.1.upper_search
       lower_search := st.1.lower_bound + RESPHI * (st.1.upper_search - st.1.lower_bound)
       lower_val := problem.calcValue
         (st.1.lower_bound + RESPHI * (st.1.upper_search - st.1.lower_bound))
       upper_search := st.1.lower_search
       upper_val := st.1.lower_val },
     st.2 ++ [st.1.lower_bound + RESPHI * (st.1.upper_search - st.1.lower_bound)])
  else
    ({ lower_bound := st.1.lower_search
       upper_bound := st.1.upper_bound
       lower_search := st.1.upper_search
       lower_val := st.1.upper_val
       upper_search := st.1.upper_bound - RESPHI * (st.1.upper_bound - st.1.lower_search)
       upper_val := problem.calcValue
         (st.1.upper_bound - RESPHI * (st.1.upper_bound - st.1.lower_search)) },
     st.2 ++ [st.1.upper_bound - RESPHI * (st.1.upper_bound - st.1.lower_search)])

/-- The loop with evaluation-point tracing. -/
noncomputable def gssLoopTrace (problem : UnimodalProblem) (xtol : ℝ) :
    ℕ → GssState × List ℝ → GssState × List ℝ
  | 0, st => st
  | fuel + 1, st =>
    if |st.1.upper_bound - st.1.lower_bound| > xtol then
      gssLoopTrace problem xtol fuel (gssStepTrace problem st)
    else st

/-- `golden_section_search` with evaluation-point tracing: the two initial
probe evaluations, one per loop iteration, and the final midpoint
evaluation. -/
noncomputable def golden_section_search_trace (problem : UnimodalProblem)
    (lower_bound upper_bound xtol : ℝ) (fuel : ℕ) : (ℝ × ℝ) × List ℝ :=
  let st := gssLoopTrace problem xtol fuel
    (gssInit problem lower_bound upper_bound,
     [lower_bound + RESPHI * (upper_bound - lower_bound),
      upper_bound - RESPHI * (upper_bound - lower_bound)])
  let final_x := (st.1.upper_bound + st.1.lower_bound) / 2
  ((final_x, problem.calcValue final_x), st.2 ++ [final_x])

/-! ### Golden-ratio arithmetic -/

lemma sqrt5_sq : Real.sqrt 5 ^ 2 = 5 := Real.sq_sqrt (by norm_num)

lemma two_lt_sqrt5 : 2 < Real.sqrt 5 := by
  nlinarith [sqrt5_sq, Real.sqrt_nonneg 5]

lemma sqrt5_lt_three : Real.sqrt 5 < 3 := by
  nlinarith [sqrt5_sq, Real.sqrt_nonneg 5]

lemma resphi_eq : RESPHI = (3 - Real.sqrt 5) / 2 := by
  unfold RESPHI PHI; ring

lemma resphi_pos : 0 < RESPHI := by
  rw [resphi_eq]; linarith [sqrt5_lt_three]

lemma resphi_lt_half : RESPHI < 1 / 2 := by
  rw [resphi_eq]; linarith [two_lt_sqrt5]

/-- The defining identity `ρ² − 3ρ + 1 = 0` of the golden-section fraction,
equivalently `(1 − ρ)² = ρ`. -/
lemma resphi_quadratic : RESPHI ^ 2 - 3 * RESPHI + 1 = 0 := by
  rw [resphi_eq]; nlinarith [sqrt5_sq]

lemma one_sub_resphi_pos : 0 < 1 - RESPHI := by
  linarith [resphi_lt_half]

lemma one_sub_resphi_lt_one : 1 - RESPHI < 1 := by
  linarith [resphi_pos]

/-! ### The loop invariant: probes sit at the golden-ratio positions -/

/-- Invariant of the search loop: the bracket is nonempty and both probes sit
at their golden-ratio positions inside it. -/
def GoodState (s : GssState) : Prop :=
  s.lower_bound < s.upper_bound ∧
  s.lower_search = s.lower_bound + RESPHI * (s.upper_bound - s.lower_bound) ∧
  s.upper_search = s.upper_bound - RESPHI * (s.upper_bound - s.lower_bound)

lemma goodState_init (problem : UnimodalProblem) {lb ub : ℝ} (h : lb < ub) :
    GoodState (gssInit problem lb ub) :=
  ⟨h, rfl, rfl⟩

lemma goodState_step (problem : UnimodalProblem) {s : GssState}
    (hs : GoodState s) : GoodState (gssStep problem s) := by
  obtain ⟨hlt, hls, hus⟩ := hs
  have hq := resphi_quadratic
  have hρ0 := resphi_pos
  have hρh := resphi_lt_half
  unfold gssStep
  split
  · refine ⟨?_, rfl, ?_⟩
    · simp only [hus]; nlinarith
    · simp only [hus, hls]; nlinarith
  · refine ⟨?_, ?_, rfl⟩
    · simp only [hls]; nlinarith
    · simp only [hus, hls]; nlinarith

lemma goodState_ordered {s : GssState} (hs : GoodState s) :
    s.lower_bound < s.lower_search ∧ s.lower_search < s.upper_search ∧
      s.upper_search < s.upper_bound := by
  obtain ⟨hlt, hls, hus⟩ := hs
  have hρ0 := resphi_pos
  have hρh := resphi_lt_half
  refine ⟨?_, ?_, ?_⟩ <;> simp only [hls, hus] <;> nlinarith

/-- Each loop iteration multiplies the bracket width by exactly `1 − ρ`
(that is, by `φ − 1 ≈ 0.618`). -/
lemma width_step (problem : UnimodalProblem) {s : GssState} (hs : GoodState s) :
    (gssStep problem s).width = (1 - RESPHI) * s.width := by
  obtain ⟨hlt, hls, hus⟩ := hs
  unfold GssState.width gssStep
  split
  · simp only [hus]; ring
  · simp only [hls]; ring

lemma goodState_iterate (problem : UnimodalProblem) {lb ub : ℝ} (h : lb < ub) :
    ∀ n : ℕ, GoodState ((gssStep problem)^[n] (gssInit problem lb ub))
  | 0 => goodState_init problem h
  | n + 1 => by
    rw [Function.iterate_succ_apply']
    exact goodState_step problem (goodState_iterate problem h n)

lemma width_iterate (problem : UnimodalProblem) {lb ub : ℝ} (h : lb < ub) :
    ∀ n : ℕ,
      ((gssStep problem)^[n] (gssInit problem lb ub)).width =
        (1 - RESPHI) ^ n * (ub - lb)
  | 0 => by simp [gssInit, GssState.width]
  | n + 1 => by
    rw [Function.iterate_succ_apply',
      width_step problem (goodState_iterate problem h n),
      width_iterate problem h n]
    ring

lemma width_iterate_pos (problem : UnimodalProblem) {lb ub : ℝ} (h : lb < ub)
    (n : ℕ) :
    0 < ((gssStep problem)^[n] (gssInit problem lb ub)).width := by
  rw [width_iterate problem h n]
  exact mul_pos (pow_pos one_sub_resphi_pos n) (by linarith)

/-! ### Loop unfolding, composition, and termination -/

lemma gssLoop_succ_of_gt (problem : UnimodalProblem) {xtol : ℝ} (fuel : ℕ)
    {s : GssState} (h : |s.upper_bound - s.lower_bound| > xtol) :
    gssLoop problem xtol (fuel + 1) s = gssLoop problem xtol fuel (gssStep problem s) := by
  simp [gssLoop, h]

lemma gssLoop_succ_of_le (problem : UnimodalProblem) {xtol : ℝ} (fuel : ℕ)
    {s : GssState} (h : ¬ |s.upper_bound - s.lower_bound| > xtol) :
    gssLoop problem xtol (fuel + 1) s = s := by
  simp [gssLoop, h]

/-- Once the guard fails, any amount of fuel leaves the state unchanged. -/
lemma gssLoop_of_le (problem : UnimodalProblem) {xtol : ℝ} {s : GssState}
    (h : ¬ |s.upper_bound - s.lower_bound| > xtol) :
    ∀ fuel : ℕ, gssLoop problem xtol fuel s = s
  | 0 => rfl
  | fuel + 1 => gssLoop_succ_of_le problem fuel h

/-- Running the loop with fuel `n + k` is running it with fuel `n`, then with
fuel `k` from where it stopped. -/
lemma gssLoop_add (problem : UnimodalProblem) (xtol : ℝ) :
    ∀ (n k : ℕ) (s : GssState),
      gssLoop problem xtol (n + k) s =
        gssLoop problem xtol k (gssLoop problem xtol n s)
  | 0, k, s => by simp [gssLoop]
  | n + 1, k, s => by
    by_cases h : |s.upper_bound - s.lower_bound| > xtol
    · have : n + 1 + k = (n + k) + 1 := by omega
      rw [this, gssLoop_succ_of_gt problem (n + k) h, gssLoop_succ_of_gt problem n h,
        gssLoop_add problem xtol n k (gssStep problem s)]
    · rw [gssLoop_succ_of_le problem n h, gssLoop_of_le problem h (n + 1 + k),
        gssLoop_of_le problem h k]

/-- As long as the guard keeps succeeding, the loop agrees with plain
iteration of the step function: either the loop has stopped (its final
state satisfies the exit condition) or it equals the `n`-fold iterate. -/
lemma gssLoop_cases (problem : UnimodalProblem) (xtol : ℝ) :
    ∀ (n : ℕ) (s : GssState),
      ¬ |(gssLoop problem xtol n s).upper_bound -
          (gssLoop problem xtol n s).lower_bound| > xtol ∨
        gssLoop problem xtol n s = (gssStep problem)^[n] s
  | 0, s => Or.inr rfl
  | n + 1, s => by
    by_cases h : |s.upper_bound - s.lower_bound| > xtol
    · rw [gssLoop_succ_of_gt problem n h]
      rcases gssLoop_cases problem xtol n (gssStep problem s) with h' | h'
      · exact Or.inl h'
      · rw [h', ← Function.iterate_succ_apply]
        exact Or.inr rfl
    · rw [gssLoop_succ_of_le problem n h]
      exact Or.inl h

/-- For positive tolerance and a nonempty bracket, some number of iterations
makes the loop guard fail. -/
lemma exists_guard_fails (problem : UnimodalProblem) {lb ub xtol : ℝ}
    (h : lb < ub) (hx : 0 < xtol) :
    ∃ n : ℕ,
      ¬ |((gssStep problem)^[n] (gssInit problem lb ub)).upper_bound -
          ((gssStep problem)^[n] (gssInit problem lb ub)).lower_bound| > xtol := by
  have hw : 0 < ub - lb := by linarith
  obtain ⟨n, hn⟩ :=
    exists_pow_lt_of_lt_one (div_pos hx hw) one_sub_resphi_lt_one
  refine ⟨n, not_lt.mpr ?_⟩
  have hwn := width_iterate problem h n
  have hpos := width_iterate_pos problem h n
  have : ((gssStep problem)^[n] (gssInit problem lb ub)).width ≤ xtol := by
    rw [hwn]
    have := (lt_div_iff₀ hw).mp hn
    linarith
  calc |((gssStep problem)^[n] (gssInit problem lb ub)).upper_bound -
          ((gssStep problem)^[n] (gssInit problem lb ub)).lower_bound|
      = ((gssStep problem)^[n] (gssInit problem lb ub)).width := abs_of_pos hpos
    _ ≤ xtol := this

/-- The loop result is eventually fuel-independent and satisfies the exit
condition. -/
lemma gssLoop_limit (problem : UnimodalProblem) {lb ub xtol : ℝ}
    (h : lb < ub) (hx : 0 < xtol) :
    ∃ n : ℕ,
      (¬ |(gssLoop problem xtol n (gssInit problem lb ub)).upper_bound -
           (gssLoop problem xtol n (gssInit problem lb ub)).lower_bound| > xtol) ∧
      ∀ m : ℕ, n ≤ m →
        gssLoop problem xtol m (gssInit problem lb ub) =
          gssLoop problem xtol n (gssInit problem lb ub) := by
  obtain ⟨n, hn⟩ := exists_guard_fails problem h hx
  have hstop :
      ¬ |(gssLoop problem xtol n (gssInit problem lb ub)).upper_bound -
          (gssLoop problem xtol n (gssInit problem lb ub)).lower_bound| > xtol := by
    rcases gssLoop_cases problem xtol n (gssInit problem lb ub) with h' | h'
    · exact h'
    · rw [h']; exact hn
  refine ⟨n, hstop, fun m hm => ?_⟩
  have hdecomp : m = n + (m - n) := by omega
  rw [hdecomp, gssLoop_add problem xtol n (m - n) (gssInit problem lb ub),
    gssLoop_of_le problem hstop (m - n)]

/-! ### The traced loop agrees with the plain loop and counts evaluations -/

lemma gssStepTrace_fst (problem : UnimodalProblem) (st : GssState × List ℝ) :
    (gssStepTrace problem st).1 = gssStep problem st.1 := by
  by_cases hc : st.1.lower_val < st.1.upper_val <;>
    simp [gssStepTrace, gssStep, hc]

lemma gssStepTrace_len (problem : UnimodalProblem) (st : GssState × List ℝ) :
    (gssStepTrace problem st).2.length = st.2.length + 1 := by
  by_cases hc : st.1.lower_val < st.1.upper_val <;>
    simp [gssStepTrace, hc]

lemma gssLoopTrace_fst (problem : UnimodalProblem) (xtol : ℝ) :
    ∀ (fuel : ℕ) (st : GssState × List ℝ),
      (gssLoopTrace problem xtol fuel st).1 = gssLoop problem xtol fuel st.1
  | 0, st => rfl
  | fuel + 1, st => by
    by_cases h : |st.1.upper_bound - st.1.lower_bound| > xtol
    · simp only [gssLoopTrace, gssLoop, if_pos h]
      rw [gssLoopTrace_fst problem xtol fuel (gssStepTrace problem st),
        gssStepTrace_fst]
    · simp only [gssLoopTrace, gssLoop, if_neg h]

lemma gssLoopTrace_len (problem : UnimodalProblem) (xtol : ℝ) :
    ∀ (fuel : ℕ) (st : GssState × List ℝ),
      (gssLoopTrace problem xtol fuel st).2.length =
        st.2.length + gssIters problem xtol fuel st.1
  | 0, st => by simp [gssLoopTrace, gssIters]
  | fuel + 1, st => by
    by_cases h : |st.1.upper_bound - st.1.lower_bound| > xtol
    · simp only [gssLoopTrace, gssIters, if_pos h]
      rw [gssLoopTrace_len problem xtol fuel (gssStepTrace problem st),
        gssStepTrace_len, gssStepTrace_fst]
      omega
    · simp [gssLoopTrace, gssIters, if_neg h]

lemma gssIters_of_le (problem : UnimodalProblem) {xtol : ℝ} {s : GssState}
    (h : ¬ |s.upper_bound - s.lower_bound| > xtol) :
    ∀ fuel : ℕ, gssIters problem xtol fuel s = 0
  | 0 => rfl
  | fuel + 1 => by simp [gssIters, h]

lemma gssLoopTrace_of_le (problem : UnimodalProblem) {xtol : ℝ}
    {st : GssState × List ℝ}
    (h : ¬ |st.1.upper_bound - st.1.lower_bound| > xtol) :
    ∀ fuel : ℕ, gssLoopTrace problem xtol fuel st = st
  | 0 => rfl
  | fuel + 1 => by simp [gssLoopTrace, h]

/-! ### Claim theorems -/

/-- C1: for every objective `problem`, every `lower_bound < upper_bound` and
every `xtol > 0`, `golden_section_search` (given enough fuel for its
unbounded loop, and stably for any larger amount) returns the pair `(m, v)`
where `m` is the midpoint `(upper_bound + lower_bound) / 2` of the final
bracket, `v = problem.calc m`, and the final bracket satisfies
`|upper_bound - lower_bound| ≤ xtol`. -/
theorem golden_section_search_postcondition (problem : UnimodalProblem)
    (lower_bound upper_bound xtol : ℝ)
    (h : lower_bound < upper_bound) (hx : 0 < xtol) :
    ∃ fuel : ℕ, ∀ fuel' : ℕ, fuel ≤ fuel' →
      |(gssLoop problem xtol fuel' (gssInit problem lower_bound upper_bound)).upper_bound -
        (gssLoop problem xtol fuel' (gssInit problem lower_bound upper_bound)).lower_bound|
        ≤ xtol ∧
      golden_section_search problem lower_bound upper_bound xtol fuel' =
        (((gssLoop problem xtol fuel' (gssInit problem lower_bound upper_bound)).upper_bound +
            (gssLoop problem xtol fuel' (gssInit problem lower_bound upper_bound)).lower_bound) / 2,
         problem.calcValue
          (((gssLoop problem xtol fuel' (gssInit problem lower_bound upper_bound)).upper_bound +
             (gssLoop problem xtol fuel' (gssInit problem lower_bound upper_bound)).lower_bound) / 2)) := by
  obtain ⟨n, hstop, hmono⟩ := gssLoop_limit problem h hx
  refine ⟨n, fun fuel' hf => ⟨?_, ?_⟩⟩
  · rw [hmono fuel' hf]
    exact not_lt.mp hstop
  · rfl

/-- Witness for C1 at `problem = ⟨0, 0⟩`, bracket `[0, 1]`, `xtol = 1`. -/
theorem golden_section_search_postcondition_witness :
    (0 : ℝ) < 1 ∧ (0 : ℝ) < 1 ∧
    ∃ fuel : ℕ, ∀ fuel' : ℕ, fuel ≤ fuel' →
      |(gssLoop ⟨0, 0⟩ 1 fuel' (gssInit ⟨0, 0⟩ 0 1)).upper_bound -
        (gssLoop ⟨0, 0⟩ 1 fuel' (gssInit ⟨0, 0⟩ 0 1)).lower_bound| ≤ 1 ∧
      golden_section_search ⟨0, 0⟩ 0 1 1 fuel' =
        (((gssLoop ⟨0, 0⟩ 1 fuel' (gssInit ⟨0, 0⟩ 0 1)).upper_bound +
            (gssLoop ⟨0, 0⟩ 1 fuel' (gssInit ⟨0, 0⟩ 0 1)).lower_bound) / 2,
         UnimodalProblem.calcValue ⟨0, 0⟩
          (((gssLoop ⟨0, 0⟩ 1 fuel' (gssInit ⟨0, 0⟩ 0 1)).upper_bound +
             (gssLoop ⟨0, 0⟩ 1 fuel' (gssInit ⟨0, 0⟩ 0 1)).lower_bound) / 2)) :=
  ⟨zero_lt_one, zero_lt_one,
    golden_section_search_postcondition ⟨0, 0⟩ 0 1 1 zero_lt_one zero_lt_one⟩

/-- C2: for every objective, every `lower_bound < upper_bound` and every
`xtol > 0`, the `while` loop terminates: the bracket width strictly
decreases geometrically (each iteration multiplies it by `1 - RESPHI < 1`),
so the guard `|upper_bound - lower_bound| > xtol` eventually fails. -/
theorem search_loop_terminates (problem : UnimodalProblem)
    (lower_bound upper_bound xtol : ℝ)
    (h : lower_bound < upper_bound) (hx : 0 < xtol) :
    (∀ n : ℕ,
      ((gssStep problem)^[n + 1] (gssInit problem lower_bound upper_bound)).width =
        (1 - RESPHI) *
          ((gssStep problem)^[n] (gssInit problem lower_bound upper_bound)).width ∧
      ((gssStep problem)^[n + 1] (gssInit problem lower_bound upper_bound)).width <
        ((gssStep problem)^[n] (gssInit problem lower_bound upper_bound)).width) ∧
    ∃ n : ℕ,
      ¬ |((gssStep problem)^[n] (gssInit problem lower_bound upper_bound)).upper_bound -
          ((gssStep problem)^[n] (gssInit problem lower_bound upper_bound)).lower_bound|
          > xtol := by
  constructor
  · intro n
    have heq : ((gssStep problem)^[n + 1] (gssInit problem lower_bound upper_bound)).width =
        (1 - RESPHI) *
          ((gssStep problem)^[n] (gssInit problem lower_bound upper_bound)).width := by
      rw [Function.iterate_succ_apply']
      exact width_step problem (goodState_iterate problem h n)
    refine ⟨heq, ?_⟩
    have hpos := width_iterate_pos problem h n
    have hlt := one_sub_resphi_lt_one
    have hgt := one_sub_resphi_pos
    rw [heq]
    nlinarith
  · exact exists_guard_fails problem h hx

/-- Witness for C2 at `problem = ⟨0, 0⟩`, bracket `[0, 1]`, `xtol = 1`. -/
theorem search_loop_terminates_witness :
    (0 : ℝ) < 1 ∧ (0 : ℝ) < 1 ∧
    ((∀ n : ℕ,
      ((gssStep ⟨0, 0⟩)^[n + 1] (gssInit ⟨0, 0⟩ 0 1)).width =
        (1 - RESPHI) * ((gssStep ⟨0, 0⟩)^[n] (gssInit ⟨0, 0⟩ 0 1)).width ∧
      ((gssStep ⟨0, 0⟩)^[n + 1] (gssInit ⟨0, 0⟩ 0 1)).width <
        ((gssStep ⟨0, 0⟩)^[n] (gssInit ⟨0, 0⟩ 0 1)).width) ∧
    ∃ n : ℕ,
      ¬ |((gssStep ⟨0, 0⟩)^[n] (gssInit ⟨0, 0⟩ 0 1)).upper_bound -
          ((gssStep ⟨0, 0⟩)^[n] (gssInit ⟨0, 0⟩ 0 1)).lower_bound| > 1) :=
  ⟨zero_lt_one, zero_lt_one,
    search_loop_terminates ⟨0, 0⟩ 0 1 1 zero_lt_one zero_lt_one⟩

/-- C3: for every `UnimodalProblem` `p` and every input `x`, `p.calc x`
equals `p.scale_factor * |1 / (x - p.x_offset)|`.  (The embedding of
`calc` is a pure Lean function of `p` and `x`; like the Rust method, which
takes `&self`, it has no side effect and cannot mutate `p`.) -/
theorem calcValue_formula (p : UnimodalProblem) (x : ℝ) :
    p.calcValue x = p.scale_factor * |1 / (x - p.x_offset)| := rfl

/-- C4 counterexample: with the constant-zero objective `⟨0, 0⟩` on the
bracket `[0, 1]`, the very first iteration leaves width `1 - RESPHI ≈ 0.618`,
which exceeds `RESPHI ≈ 0.382` times the previous width `1`: the claimed
per-iteration shrink factor `ρ = 2 - φ` is wrong. -/
theorem width_shrink_factor_counterexample :
    ¬ ((gssStep ⟨0, 0⟩ (gssInit ⟨0, 0⟩ 0 1)).width ≤
        RESPHI * (gssInit ⟨0, 0⟩ 0 1).width) := by
  have hρ := resphi_lt_half
  simp only [gssStep, gssInit, UnimodalProblem.calcValue, GssState.width,
    zero_mul, lt_irrefl, if_false, not_le]
  nlinarith

/-- C4 amended: each iteration of the search loop multiplies the bracket
width by exactly `1 - RESPHI = φ - 1 ≈ 0.618` (in exact real arithmetic),
not by `RESPHI = 2 - φ ≈ 0.382`; the factor `1 - RESPHI` is strictly
between `RESPHI` and `1`. -/
theorem width_shrink_factor (problem : UnimodalProblem)
    (lower_bound upper_bound : ℝ) (h : lower_bound < upper_bound) (n : ℕ) :
    ((gssStep problem)^[n + 1] (gssInit problem lower_bound upper_bound)).width =
      (1 - RESPHI) *
        ((gssStep problem)^[n] (gssInit problem lower_bound upper_bound)).width ∧
    RESPHI < 1 - RESPHI ∧ 1 - RESPHI < 1 := by
  refine ⟨?_, ?_, one_sub_resphi_lt_one⟩
  · rw [Function.iterate_succ_apply']
    exact width_step problem (goodState_iterate problem h n)
  · have := resphi_lt_half
    linarith

/-- Witness for the amended C4 at `problem = ⟨0, 0⟩`, bracket `[0, 1]`,
`n = 0`. -/
theorem width_shrink_factor_witness :
    (0 : ℝ) < 1 ∧
    (((gssStep ⟨0, 0⟩)^[0 + 1] (gssInit ⟨0, 0⟩ 0 1)).width =
      (1 - RESPHI) * ((gssStep ⟨0, 0⟩)^[0] (gssInit ⟨0, 0⟩ 0 1)).width ∧
    RESPHI < 1 - RESPHI ∧ 1 - RESPHI < 1) :=
  ⟨zero_lt_one, width_shrink_factor ⟨0, 0⟩ 0 1 zero_lt_one 0⟩

/-- C5 counterexample: at a state with equal cached probe values
(`lower_val = upper_val = 7`), the strict `<` test fails, so the `else`
branch runs: `upper_bound` is kept (it stays `1`, it is not replaced by
`upper_search = 3/5`), contradicting the claim that the equality case takes
the branch that replaces `upper_bound`. -/
theorem tie_break_counterexample :
    (⟨0, 1, 2/5, 7, 3/5, 7⟩ : GssState).lower_val =
      (⟨0, 1, 2/5, 7, 3/5, 7⟩ : GssState).upper_val ∧
    ¬ ((gssStep ⟨0, 0⟩ (⟨0, 1, 2/5, 7, 3/5, 7⟩ : GssState)).upper_bound =
        (⟨0, 1, 2/5, 7, 3/5, 7⟩ : GssState).upper_search) := by
  refine ⟨rfl, ?_⟩
  simp only [gssStep, lt_irrefl, if_false]
  norm_num

/-- C5 amended: when the cached probe values are equal, the `else` branch of
the loop body executes: it replaces `lower_bound` with `lower_search` and
keeps `upper_bound` unchanged (the bracket shrinks by discarding its lower
portion). -/
theorem tie_break_takes_else_branch (problem : UnimodalProblem)
    (s : GssState) (h : s.lower_val = s.upper_val) :
    (gssStep problem s).lower_bound = s.lower_search ∧
    (gssStep problem s).upper_bound = s.upper_bound := by
  unfold gssStep
  rw [if_neg (by rw [h]; exact lt_irrefl _)]
  exact ⟨rfl, rfl⟩

/-- Witness for the amended C5 at the equal-values state used in the
counterexample. -/
theorem tie_break_takes_else_branch_witness :
    (⟨0, 1, 2/5, 7, 3/5, 7⟩ : GssState).lower_val =
      (⟨0, 1, 2/5, 7, 3/5, 7⟩ : GssState).upper_val ∧
    ((gssStep ⟨0, 0⟩ (⟨0, 1, 2/5, 7, 3/5, 7⟩ : GssState)).lower_bound =
      (⟨0, 1, 2/5, 7, 3/5, 7⟩ : GssState).lower_search ∧
    (gssStep ⟨0, 0⟩ (⟨0, 1, 2/5, 7, 3/5, 7⟩ : GssState)).upper_bound =
      (⟨0, 1, 2/5, 7, 3/5, 7⟩ : GssState).upper_bound) :=
  ⟨rfl, tie_break_takes_else_branch ⟨0, 0⟩ ⟨0, 1, 2/5, 7, 3/5, 7⟩ rfl⟩

/-- C6: for every `lower_bound < upper_bound` and `xtol > 0`, after
initialization and after every loop iteration the current state satisfies
the strict ordering `lower_bound < lower_search < upper_search <
upper_bound`. -/
theorem bracket_probe_ordering (problem : UnimodalProblem)
    (lower_bound upper_bound xtol : ℝ)
    (h : lower_bound < upper_bound) (_hx : 0 < xtol) (n : ℕ) :
    ((gssStep problem)^[n] (gssInit problem lower_bound upper_bound)).lower_bound <
      ((gssStep problem)^[n] (gssInit problem lower_bound upper_bound)).lower_search ∧
    ((gssStep problem)^[n] (gssInit problem lower_bound upper_bound)).lower_search <
      ((gssStep problem)^[n] (gssInit problem lower_bound upper_bound)).upper_search ∧
    ((gssStep problem)^[n] (gssInit problem lower_bound upper_bound)).upper_search <
      ((gssStep problem)^[n] (gssInit problem lower_bound upper_bound)).upper_bound :=
  goodState_ordered (goodState_iterate problem h n)

/-- Witness for C6 at `problem = ⟨0, 0⟩`, bracket `[0, 1]`, `xtol = 1`,
after initialization (`n = 0`). -/
theorem bracket_probe_ordering_witness :
    (0 : ℝ) < 1 ∧ (0 : ℝ) < 1 ∧
    (((gssStep ⟨0, 0⟩)^[0] (gssInit ⟨0, 0⟩ 0 1)).lower_bound <
      ((gssStep ⟨0, 0⟩)^[0] (gssInit ⟨0, 0⟩ 0 1)).lower_search ∧
    ((gssStep ⟨0, 0⟩)^[0] (gssInit ⟨0, 0⟩ 0 1)).lower_search <
      ((gssStep ⟨0, 0⟩)^[0] (gssInit ⟨0, 0⟩ 0 1)).upper_search ∧
    ((gssStep ⟨0, 0⟩)^[0] (gssInit ⟨0, 0⟩ 0 1)).upper_search <
      ((gssStep ⟨0, 0⟩)^[0] (gssInit ⟨0, 0⟩ 0 1)).upper_bound) :=
  ⟨zero_lt_one, zero_lt_one,
    bracket_probe_ordering ⟨0, 0⟩ 0 1 1 zero_lt_one zero_lt_one 0⟩

/-- C7: the search evaluates the objective exactly twice before the loop
(visible in the initial trace, which has the two probe points), exactly once
per loop iteration (each branch of `gssStepTrace` appends one evaluation
point), and once more after the loop at the midpoint: the full evaluation
trace has length `iterations + 3`. -/
theorem evaluation_count (problem : UnimodalProblem)
    (lower_bound upper_bound xtol : ℝ) (fuel : ℕ)
    (_h : lower_bound < upper_bound) (_hx : 0 < xtol) :
    (golden_section_search_trace problem lower_bound upper_bound xtol fuel).2.length =
      gssIters problem xtol fuel (gssInit problem lower_bound upper_bound) + 3 ∧
    ∀ st : GssState × List ℝ,
      (gssStepTrace problem st).2.length = st.2.length + 1 := by
  refine ⟨?_, gssStepTrace_len problem⟩
  simp only [golden_section_search_trace, List.length_append,
    gssLoopTrace_len problem xtol fuel, List.length_cons, List.length_nil,
    List.length_singleton]
  omega

/-- Witness for C7 at `problem = ⟨0, 0⟩`, bracket `[0, 1]`, `xtol = 1`,
`fuel = 2`. -/
theorem evaluation_count_witness :
    (0 : ℝ) < 1 ∧ (0 : ℝ) < 1 ∧
    ((golden_section_search_trace ⟨0, 0⟩ 0 1 1 2).2.length =
      gssIters ⟨0, 0⟩ 1 2 (gssInit ⟨0, 0⟩ 0 1) + 3 ∧
    ∀ st : GssState × List ℝ,
      (gssStepTrace ⟨0, 0⟩ st).2.length = st.2.length + 1) :=
  ⟨zero_lt_one, zero_lt_one,
    evaluation_count ⟨0, 0⟩ 0 1 1 2 zero_lt_one zero_lt_one⟩

/-- C8: if the initial bracket already satisfies
`|upper_bound - lower_bound| ≤ xtol`, the loop body never executes (zero
iterations), the search returns the midpoint of the original bracket with
the objective value there, and the evaluation trace is exactly the two
initial probes followed by the single midpoint evaluation. -/
theorem small_bracket_no_iteration (problem : UnimodalProblem)
    (lower_bound upper_bound xtol : ℝ) (fuel : ℕ)
    (h : |upper_bound - lower_bound| ≤ xtol) :
    gssIters problem xtol fuel (gssInit problem lower_bound upper_bound) = 0 ∧
    golden_section_search problem lower_bound upper_bound xtol fuel =
      ((upper_bound + lower_bound) / 2,
       problem.calcValue ((upper_bound + lower_bound) / 2)) ∧
    (golden_section_search_trace problem lower_bound upper_bound xtol fuel).2 =
      [lower_bound + RESPHI * (upper_bound - lower_bound),
       upper_bound - RESPHI * (upper_bound - lower_bound),
       (upper_bound + lower_bound) / 2] := by
  have hg : ¬ |(gssInit problem lower_bound upper_bound).upper_bound -
      (gssInit problem lower_bound upper_bound).lower_bound| > xtol :=
    not_lt.mpr h
  refine ⟨gssIters_of_le problem hg fuel, ?_, ?_⟩
  · simp only [golden_section_search, gssLoop_of_le problem hg fuel]
    rfl
  · have hg' : ¬ |((gssInit problem lower_bound upper_bound,
        ([lower_bound + RESPHI * (upper_bound - lower_bound),
          upper_bound - RESPHI * (upper_bound - lower_bound)] : List ℝ)) :
          GssState × List ℝ).1.upper_bound -
        ((gssInit problem lower_bound upper_bound,
        ([lower_bound + RESPHI * (upper_bound - lower_bound),
          upper_bound - RESPHI * (upper_bound - lower_bound)] : List ℝ)) :
          GssState × List ℝ).1.lower_bound| > xtol := not_lt.mpr h
    simp only [golden_section_search_trace, gssLoopTrace_of_le problem hg' fuel]
    rfl

/-- Witness for C8 at `problem = ⟨0, 0⟩`, bracket `[0, 1]`, `xtol = 1`,
`fuel = 5`. -/
theorem small_bracket_no_iteration_witness :
    |(1 : ℝ) - 0| ≤ 1 ∧
    (gssIters ⟨0, 0⟩ 1 5 (gssInit ⟨0, 0⟩ 0 1) = 0 ∧
    golden_section_search ⟨0, 0⟩ 0 1 1 5 =
      ((1 + 0) / 2, UnimodalProblem.calcValue ⟨0, 0⟩ ((1 + 0) / 2)) ∧
    (golden_section_search_trace ⟨0, 0⟩ 0 1 1 5).2 =
      [0 + RESPHI * (1 - 0), 1 - RESPHI * (1 - 0), (1 + 0) / 2]) :=
  ⟨by norm_num, small_bracket_no_iteration ⟨0, 0⟩ 0 1 1 5 (by norm_num)⟩

/-- C9: the search is deterministic: two invocations with identical
arguments (and identical loop fuel) return identical results; the embedded
search is a pure function with no hidden randomness. -/
theorem search_deterministic (p₁ p₂ : UnimodalProblem)
    (lb₁ lb₂ ub₁ ub₂ xtol₁ xtol₂ : ℝ) (fuel₁ fuel₂ : ℕ)
    (hp : p₁ = p₂) (hlb : lb₁ = lb₂) (hub : ub₁ = ub₂)
    (hxt : xtol₁ = xtol₂) (hf : fuel₁ = fuel₂) :
    golden_section_search p₁ lb₁ ub₁ xtol₁ fuel₁ =
      golden_section_search p₂ lb₂ ub₂ xtol₂ fuel₂ := by
  rw [hp, hlb, hub, hxt, hf]

/-- Witness for C9 at `problem = ⟨0, 0⟩`, bracket `[0, 1]`, `xtol = 1`,
`fuel = 3`. -/
theorem search_deterministic_witness :
    golden_section_search ⟨0, 0⟩ 0 1 1 3 =
      golden_section_search ⟨0, 0⟩ 0 1 1 3 :=
  search_deterministic ⟨0, 0⟩ ⟨0, 0⟩ 0 0 1 1 1 1 3 3 rfl rfl rfl rfl rfl

/-- With a negative scale factor the objective takes values below any bound
on every bracket whose interior contains the offset (approaching the
singularity from the right). -/
lemma calcValue_unbounded_below {p : UnimodalProblem} (hs : p.scale_factor < 0)
    {lb ub : ℝ} (hl : lb < p.x_offset) (hu : p.x_offset < ub) (M : ℝ) :
    ∃ x : ℝ, x ∈ Set.Icc lb ub ∧ x ≠ p.x_offset ∧ p.calcValue x < M := by
  set o := p.x_offset with ho
  set c := p.scale_factor with hc
  set M' : ℝ := min M 0 - 1 with hM'
  have hM'neg : M' < 0 := by
    have := min_le_right M 0
    rw [hM']
    linarith
  have hM'lt : M' < M := by
    have := min_le_left M 0
    rw [hM']
    linarith
  have hquo : 0 < c / M' := div_pos_iff.mpr (Or.inr ⟨hs, hM'neg⟩)
  set δ : ℝ := min ((ub - o) / 2) (c / M') with hδ
  have hδpos : 0 < δ := lt_min (by linarith) hquo
  have hδub : δ ≤ (ub - o) / 2 := min_le_left _ _
  have hδc : δ ≤ c / M' := min_le_right _ _
  refine ⟨o + δ, ⟨by linarith, by linarith⟩, by linarith, ?_⟩
  have hval : p.calcValue (o + δ) = c * (1 / δ) := by
    unfold UnimodalProblem.calcValue
    rw [← ho, ← hc, show o + δ - o = δ by ring,
      abs_of_pos (by positivity : (0 : ℝ) < 1 / δ)]
  have hcM' : c ≤ M' * δ := by
    have h1 : M' * (c / M') ≤ M' * δ :=
      mul_le_mul_of_nonpos_left hδc (le_of_lt hM'neg)
    have h2 : M' * (c / M') = c := by
      rw [mul_comm, div_mul_cancel₀ c (ne_of_lt hM'neg)]
    calc c = M' * (c / M') := h2.symm
      _ ≤ M' * δ := h1
  have hfin : c * (1 / δ) ≤ M' := by
    rw [mul_one_div]
    exact (div_le_iff₀ hδpos).mpr hcM'
  rw [hval]
  linarith

/-- C10: for every `UnimodalProblem` `p` and `x ≠ p.x_offset`, `p.calc x`
has the sign of `p.scale_factor` (zero when it is zero); `randomize` draws
with `g2 < 1/2` produce a negative scale factor, and for a negative scale
factor the objective is unbounded below (hence has no finite minimum) on
every bracket containing `x_offset` in its interior. -/
theorem calc_sign_and_no_minimum :
    (∀ (p : UnimodalProblem) (x : ℝ), x ≠ p.x_offset →
      ((0 < p.scale_factor → 0 < p.calcValue x) ∧
       (p.scale_factor < 0 → p.calcValue x < 0) ∧
       (p.scale_factor = 0 → p.calcValue x = 0))) ∧
    (∀ g1 g2 : ℝ, 0 ≤ g2 → g2 < 1 / 2 →
      ((UnimodalProblemBuilder.new.randomize g1 g2).build).scale_factor < 0) ∧
    (∀ (p : UnimodalProblem) (lb ub : ℝ), p.scale_factor < 0 →
      lb < p.x_offset → p.x_offset < ub →
      (∀ M : ℝ, ∃ x : ℝ, x ∈ Set.Icc lb ub ∧ x ≠ p.x_offset ∧ p.calcValue x < M) ∧
      ¬ ∃ m : ℝ, ∀ x : ℝ, x ∈ Set.Icc lb ub → x ≠ p.x_offset → m ≤ p.calcValue x) := by
  refine ⟨?_, ?_, ?_⟩
  · intro p x hx
    have habs : 0 < |1 / (x - p.x_offset)| :=
      abs_pos.mpr (one_div_ne_zero (sub_ne_zero.mpr hx))
    unfold UnimodalProblem.calcValue
    exact ⟨fun hp => mul_pos hp habs,
      fun hp => mul_neg_of_neg_of_pos hp habs,
      fun hp => by rw [hp, zero_mul]⟩
  · intro g1 g2 _hg0 hg2
    simp only [UnimodalProblemBuilder.new, UnimodalProblemBuilder.randomize,
      UnimodalProblemBuilder.build]
    nlinarith
  · intro p lb ub hs hl hu
    refine ⟨calcValue_unbounded_below hs hl hu, ?_⟩
    rintro ⟨m, hm⟩
    obtain ⟨x, hx, hxo, hlt⟩ := calcValue_unbounded_below hs hl hu m
    exact absurd (hm x hx hxo) (not_le.mpr hlt)

/-- Witness for C10: the problem `⟨0, -1⟩` (offset `0`, scale `-1`) on the
bracket `[-1, 1]`: negative value at `x = 1`, a negative randomized scale
from draws `(0, 0)`, and a point of the bracket with value below `-5`. -/
theorem calc_sign_and_no_minimum_witness :
    UnimodalProblem.calcValue ⟨0, -1⟩ 1 < 0 ∧
    ((UnimodalProblemBuilder.new.randomize 0 0).build).scale_factor < 0 ∧
    ∃ x : ℝ, x ∈ Set.Icc (-1 : ℝ) 1 ∧
      x ≠ (⟨0, -1⟩ : UnimodalProblem).x_offset ∧
      UnimodalProblem.calcValue ⟨0, -1⟩ x < -5 :=
  ⟨(calc_sign_and_no_minimum.1 ⟨0, -1⟩ 1 (by norm_num)).2.1 (by norm_num),
   calc_sign_and_no_minimum.2.1 0 0 le_rfl (by norm_num),
   (calc_sign_and_no_minimum.2.2 ⟨0, -1⟩ (-1) 1 (by norm_num) (by norm_num)
      (by norm_num)).1 (-5)⟩

end GoldenSection
